import Mathlib

/-!
Verification of the webhook-driven task runner (`app.py`): a shallow
embedding of its data model and operations, together with theorems
settling the specification's claims about it.

External effects (the GitHub client, HTTP requests, sleeping) are
modelled by explicit environments supplying the outcome of each call;
Python exceptions are modelled with `Except`, and functions that the
source wraps in `try/except` are total here, returning the value the
handler produces.
-/

/-- A Python exception, as coarse as the source's handlers need:
`except GithubException` branches on `isGithub`; `except Exception`
catches everything. `message` is `str(e)`. -/

inductive PyErr where
  | github (msg : String)
  | other (msg : String)
deriving Repr, DecidableEq

def PyErr.isGithub : PyErr → Bool
  | .github _ => true
  | .other _ => false

def PyErr.message : PyErr → String
  | .github m => m
  | .other m => m

/-! ## Base64 (model of Python's `base64.b64decode` and the standard encoder) -/

/-- The standard base64 alphabet: value `n < 64` to its character. -/

def b64Char (n : Nat) : Char :=
  if n < 26 then Char.ofNat (65 + n)
  else if n < 52 then Char.ofNat (97 + (n - 26))
  else if n < 62 then Char.ofNat (48 + (n - 52))
  else if n = 62 then '+'
  else '/'

/-- Inverse of the alphabet: `none` for a character outside it. -/

def b64Val (c : Char) : Option Nat :=
  if 'A' ≤ c ∧ c ≤ 'Z' then some (c.toNat - 65)
  else if 'a' ≤ c ∧ c ≤ 'z' then some (c.toNat - 97 + 26)
  else if '0' ≤ c ∧ c ≤ '9' then some (c.toNat - 48 + 52)
  else if c = '+' then some 62
  else if c = '/' then some 63
  else none

/-- Standard base64 encoding of a byte list (bytes as `Nat < 256`),
with `=` padding; the reference encoder for the spec's round-trip law. -/

def b64encodeBytes : List Nat → List Char
  | [] => []
  | [x] => [b64Char (x / 4), b64Char (x % 4 * 16), '=', '=']
  | [x, y] => [b64Char (x / 4), b64Char (x % 4 * 16 + y / 16), b64Char (y % 16 * 4), '=']
  | x :: y :: z :: rest =>
      b64Char (x / 4) :: b64Char (x % 4 * 16 + y / 16) :: b64Char (y % 16 * 4 + z / 64) ::
        b64Char (z % 64) :: b64encodeBytes rest

/-- Characters `base64.b64decode` keeps in legacy (non-validating) mode:
alphabet characters and the padding character; all others are discarded. -/

def b64Keep (c : Char) : Bool := (b64Val c).isSome || c = '='

/-- Decode a filtered character list quantum by quantum, as
`binascii.a2b_base64` does: four data characters yield three bytes,
`==` / `=` padding ends the data yielding one / two bytes, and a
leftover of one to three characters is an incorrect-padding error. -/

def b64Quanta : List Char → Option (List Nat)
  | [] => some []
  | a :: b :: c :: d :: rest =>
    match b64Val a, b64Val b with
    | some va, some vb =>
      if c = '=' then
        if d = '=' then some [va * 4 + vb / 16] else none
      else
        match b64Val c with
        | some vc =>
          if d = '=' then some [va * 4 + vb / 16, vb % 16 * 16 + vc / 4]
          else
            match b64Val d with
            | some vd =>
              match b64Quanta rest with
              | some tail =>
                  some ((va * 4 + vb / 16) :: (vb % 16 * 16 + vc / 4) :: (vc % 4 * 64 + vd) :: tail)
              | none => none
            | none => none
        | none => none
    | _, _ => none
  | _ => none

/-- Model of `base64.b64decode` applied to a `str`: the string is first
ASCII-encoded (a non-ASCII character raises), foreign characters are
discarded, then quanta are decoded; `none` models a raised error. -/

def b64decode (s : String) : Option (List Nat) :=
  if s.data.all (fun c => c.toNat < 128) then b64Quanta (s.data.filter b64Keep) else none

/-! ## UTF-8 (model of Python's `str.encode`/`bytes.decode` with the strict utf-8 codec) -/

/-- UTF-8 encoding of one Unicode scalar value, as the utf-8 codec
produces it (1 to 4 bytes). -/

def utf8EncodeChar (c : Char) : List Nat :=
  if c.toNat < 0x80 then [c.toNat]
  else if c.toNat < 0x800 then [0xC0 + c.toNat / 64, 0x80 + c.toNat % 64]
  else if c.toNat < 0x10000 then
    [0xE0 + c.toNat / 4096, 0x80 + c.toNat / 64 % 64, 0x80 + c.toNat % 64]
  else
    [0xF0 + c.toNat / 262144, 0x80 + c.toNat / 4096 % 64, 0x80 + c.toNat / 64 % 64,
     0x80 + c.toNat % 64]

/-- UTF-8 encoding of a character list. -/

def utf8EncodeList : List Char → List Nat
  | [] => []
  | c :: cs => utf8EncodeChar c ++ utf8EncodeList cs

/-- One step of the strict utf-8 decoder: reads one scalar value off the
front of the byte list, rejecting stray continuation bytes, overlong
forms, surrogates, values past U+10FFFF and truncated sequences. -/

def utf8Step : List Nat → Option (Char × List Nat)
  | [] => none
  | b :: rest =>
    if b < 0x80 then some (Char.ofNat b, rest)
    else if b < 0xC2 then none
    else if b < 0xE0 then
      match rest with
      | b1 :: rest1 =>
        if 0x80 ≤ b1 ∧ b1 < 0xC0 then
          some (Char.ofNat ((b - 0xC0) * 64 + (b1 - 0x80)), rest1)
        else none
      | [] => none
    else if b < 0xF0 then
      match rest with
      | b1 :: b2 :: rest2 =>
        if 0x80 ≤ b1 ∧ b1 < 0xC0 ∧ 0x80 ≤ b2 ∧ b2 < 0xC0 then
          if 0x800 ≤ (b - 0xE0) * 4096 + (b1 - 0x80) * 64 + (b2 - 0x80) ∧
              ¬(0xD800 ≤ (b - 0xE0) * 4096 + (b1 - 0x80) * 64 + (b2 - 0x80) ∧
                (b - 0xE0) * 4096 + (b1 - 0x80) * 64 + (b2 - 0x80) ≤ 0xDFFF) then
            some (Char.ofNat ((b - 0xE0) * 4096 + (b1 - 0x80) * 64 + (b2 - 0x80)), rest2)
          else none
        else none
      | _ => none
    else if b < 0xF5 then
      match rest with
      | b1 :: b2 :: b3 :: rest3 =>
        if 0x80 ≤ b1 ∧ b1 < 0xC0 ∧ 0x80 ≤ b2 ∧ b2 < 0xC0 ∧ 0x80 ≤ b3 ∧ b3 < 0xC0 then
          if 0x10000 ≤ (b - 0xF0) * 262144 + (b1 - 0x80) * 4096 + (b2 - 0x80) * 64 + (b3 - 0x80) ∧
              (b - 0xF0) * 262144 + (b1 - 0x80) * 4096 + (b2 - 0x80) * 64 + (b3 - 0x80) ≤
                0x10FFFF then
            some (Char.ofNat
              ((b - 0xF0) * 262144 + (b1 - 0x80) * 4096 + (b2 - 0x80) * 64 + (b3 - 0x80)), rest3)
          else none
        else none
      | _ => none
    else none

/-- Fuel-driven iteration of `utf8Step`; with fuel at least the byte
count it decodes the whole list. -/

def utf8DecodeGo : Nat → List Nat → Option (List Char)
  | _, [] => some []
  | 0, _ :: _ => none
  | fuel + 1, b :: rest =>
    match utf8Step (b :: rest) with
    | some (c, tail) => (utf8DecodeGo fuel tail).map (fun cs => c :: cs)
    | none => none

/-- Model of `bytes.decode` with the strict utf-8 codec; `none` models a
raised `UnicodeDecodeError`. -/

def utf8DecodeList (l : List Nat) : Option (List Char) :=
  utf8DecodeGo l.length l

/-! ## Data model: attachments, requests, JSON-ish dictionaries -/

/-- One inbound attachment descriptor: `{"name": ..., "url": ...}`. -/

structure Attachment where
  name : String
  url : String
deriving Repr, DecidableEq

/-- The inbound job (`TaskRequest` in the source). `checks` is opaque
and passed through, so its entries are left as strings. -/

structure TaskRequest where
  email : String
  secret : String
  task : String
  round : Int
  nonce : String
  brief : String
  checks : List String
  evaluation_url : String
  attachments : List Attachment
deriving Repr, DecidableEq

/-- A JSON value as the payloads here need: string, integer, or null. -/

inductive JVal where
  | str (s : String)
  | num (n : Int)
  | null
deriving Repr, DecidableEq

/-- A Python `dict` with string keys, with insertion order observable
(as in Python 3.7+): an association list without duplicate keys as long
as it is only edited through `setItem`. -/

abbrev Dict := List (String × JVal)

/-- `d[key]` lookup (first matching key), `none` when absent. -/

def getItem {α : Type} : List (String × α) → String → Option α
  | [], _ => none
  | (k, v) :: rest, key => if k = key then some v else getItem rest key

/-- `d[key] = v`: replace the value at an existing key in place,
else append the new key at the end, as Python dict assignment does. -/

def setItem {α : Type} : List (String × α) → String → α → List (String × α)
  | [], key, v => [(key, v)]
  | (k, w) :: rest, key, v =>
    if k = key then (k, v) :: rest else (k, w) :: setItem rest key v

/-- `url.split(",", 1)`, successful exactly when a comma is present:
`some (before, after)` splits at the first comma; `none` models the
unpacking `ValueError` when there is no comma. -/

def splitFirstComma : List Char → Option (List Char × List Char)
  | [] => none
  | c :: cs =>
    if c = ',' then some ([], cs)
    else
      match splitFirstComma cs with
      | some (before, after) => some (c :: before, after)
      | none => none

/-- `decode_attachment` (app.py:53-59): split the data URI on the first
comma, base64-decode the remainder, decode the bytes as utf-8 text; any
failure is caught, logged, and turned into `None` ("no content"). -/

def decode_attachment (attachment : Attachment) : Option String :=
  match splitFirstComma attachment.url.data with
  | none => none
  | some (_, encoded) =>
    match b64decode (String.mk encoded) with
    | none => none
    | some bytes =>
      match utf8DecodeList bytes with
      | none => none
      | some cs => some (String.mk cs)

/-- Modelled from the spec: "decode(encode(x))" needs an encoder, which
the repository does not contain; per the spec, encode builds the
well-formed data URI `<header>,<base64 of utf-8 x>`. -/

def encodeAttachment (header name x : String) : Attachment :=
  { name := name, url := header ++ "," ++ String.mk (b64encodeBytes (utf8EncodeList x.data)) }

/-! ## Repository Publisher (`create_or_update_repo`, app.py:61-96) -/

/-- The authenticated user object (`github_client.get_user()`). -/

structure GhUser where
  login : String
deriving Repr, DecidableEq

/-- A repository object; `html_url` is its web URL. -/

structure GhRepo where
  html_url : String
deriving Repr, DecidableEq

/-- A file-contents object; `sha` is the version token update_file needs. -/

structure GhFile where
  sha : String
deriving Repr, DecidableEq

/-- The response to the Pages-enable POST: its status code, and the
result of `response.json().get("message", "")` (which itself can raise
when the body is not JSON). -/

structure PagesResp where
  status_code : Nat
  jsonMessage : Except PyErr String

/-- Environment giving the outcome of every GitHub / HTTP call the
publisher makes. -/

structure GhEnv where
  get_user : Except PyErr GhUser
  get_repo : String → Except PyErr GhRepo
  create_repo : String → Except PyErr GhRepo
  get_contents : GhRepo → String → Except PyErr GhFile
  update_file : GhRepo → String → String → String → String → Except PyErr Unit
  create_file : GhRepo → String → String → String → Except PyErr Unit
  post_pages : String → Except PyErr PagesResp
  get_branch : GhRepo → String → Except PyErr String

/-- One observable repository-hosting operation. -/

inductive GhEv where
  | getUser
  | getRepo (name : String)
  | createRepo (name : String)
  | getContents (path : String)
  | updateFile (path : String)
  | createFile (path : String)
  | enablePages
  | getBranch
deriving Repr, DecidableEq

/-- The ensure-repository step (app.py:64-70): reuse the repository if
`get_repo` succeeds; on a `GithubException` create it instead; any
other failure, or a creation failure, propagates. -/

def ensureRepo (env : GhEnv) (repo_name : String) : List GhEv × Except PyErr GhRepo :=
  match env.get_repo repo_name with
  | .ok repo => ([.getRepo repo_name], .ok repo)
  | .error e =>
    if e.isGithub then
      match env.create_repo repo_name with
      | .ok repo => ([.getRepo repo_name, .createRepo repo_name], .ok repo)
      | .error e2 => ([.getRepo repo_name, .createRepo repo_name], .error e2)
    else ([.getRepo repo_name], .error e)

/-- One iteration of the per-file loop (app.py:72-79): fetch the file
and update it; a `GithubException` from either call falls to
`create_file`; any other exception, or a creation failure, propagates. -/

def writeOneFile (env : GhEnv) (repo : GhRepo) (commit_message : String)
    (file_path content : String) : List GhEv × Except PyErr Unit :=
  match env.get_contents repo file_path with
  | .ok file =>
    match env.update_file repo file_path commit_message content file.sha with
    | .ok _ => ([.getContents file_path, .updateFile file_path], .ok ())
    | .error e =>
      if e.isGithub then
        match env.create_file repo file_path commit_message content with
        | .ok _ => ([.getContents file_path, .updateFile file_path, .createFile file_path], .ok ())
        | .error e2 =>
          ([.getContents file_path, .updateFile file_path, .createFile file_path], .error e2)
      else ([.getContents file_path, .updateFile file_path], .error e)
  | .error e =>
    if e.isGithub then
      match env.create_file repo file_path commit_message content with
      | .ok _ => ([.getContents file_path, .createFile file_path], .ok ())
      | .error e2 => ([.getContents file_path, .createFile file_path], .error e2)
    else ([.getContents file_path], .error e)

/-- The per-file loop over `files_to_commit.items()`; the first
propagating exception aborts the rest of the loop. -/

def writeFiles (env : GhEnv) (repo : GhRepo) (commit_message : String) :
    List (String × String) → List GhEv × Except PyErr Unit
  | [] => ([], .ok ())
  | (file_path, content) :: rest =>
    match writeOneFile env repo commit_message file_path content with
    | (evs, .ok _) =>
      match writeFiles env repo commit_message rest with
      | (evs2, r) => (evs ++ evs2, r)
    | (evs, .error e) => (evs, .error e)

/-- The body of `create_or_update_repo`'s `try` block (app.py:62-93):
ensure the repository, write every file, enable Pages (non-201
statuses are only logged, but reading the response body may raise),
read the main-branch tip, and return the triple
`(repo.html_url, pages_url, commit_sha)`; the first exception aborts
the rest. Returns the outcome and the operations performed. -/

def create_or_update_repoBody (env : GhEnv) (repo_name : String)
    (files_to_commit : List (String × String)) (commit_message : String) :
    Except PyErr (String × String × String) × List GhEv :=
  match env.get_user with
  | .error e => (.error e, [.getUser])
  | .ok user =>
    match ensureRepo env repo_name with
    | (evR, .error e) => (.error e, .getUser :: evR)
    | (evR, .ok repo) =>
      match writeFiles env repo commit_message files_to_commit with
      | (evF, .error e) => (.error e, .getUser :: (evR ++ evF))
      | (evF, .ok _) =>
        let pages_url := "https://" ++ user.login ++ ".github.io/" ++ repo_name ++ "/"
        let pages_endpoint :=
          "https://api.github.com/repos/" ++ user.login ++ "/" ++ repo_name ++ "/pages"
        match env.post_pages pages_endpoint with
        | .error e => (.error e, .getUser :: (evR ++ evF ++ [.enablePages]))
        | .ok resp =>
          match (if resp.status_code = 201 then .ok () else resp.jsonMessage.map fun _ => () :
              Except PyErr Unit) with
          | .error e => (.error e, .getUser :: (evR ++ evF ++ [.enablePages]))
          | .ok _ =>
            match env.get_branch repo "main" with
            | .error e => (.error e, .getUser :: (evR ++ evF ++ [.enablePages, .getBranch]))
            | .ok commit_sha =>
              (.ok (repo.html_url, pages_url, commit_sha),
                .getUser :: (evR ++ evF ++ [.enablePages, .getBranch]))

/-- `create_or_update_repo` (app.py:61-96): run the `try` body; any
exception is caught at the boundary (`except Exception`), logged, and
turned into the triple `(None, None, None)`. -/

def create_or_update_repo (env : GhEnv) (repo_name : String)
    (files_to_commit : List (String × String)) (commit_message : String) :
    (Option String × Option String × Option String) × List GhEv :=
  match create_or_update_repoBody env repo_name files_to_commit commit_message with
  | (.ok (repo_url, pages_url, commit_sha), evs) =>
    ((some repo_url, some pages_url, some commit_sha), evs)
  | (.error _, evs) => ((none, none, none), evs)

/-! ## Grader Notifier (`notify_grader`, app.py:98-115) -/

/-- Outcome of one `requests.post` to the callback: an HTTP response
with a status code, or a raised `RequestException` (timeouts included). -/

inductive PostOutcome where
  | status (code : Nat)
  | exc (msg : String)
deriving Repr, DecidableEq

/-- Observable notifier behaviour: delivery attempts (numbered from 0)
and the `time.sleep` waits between them. -/

inductive NEvent where
  | attempt (i : Nat)
  | sleep (d : Nat)
deriving Repr, DecidableEq

/-- The retry loop `for attempt in range(4)` with `delay = 1` doubling
after each failure: attempt `i`; on HTTP 200 return at once; otherwise
(any other status, or an exception) sleep `delay` and continue. -/

def notifyAttempts (env : Nat → PostOutcome) : Nat → Nat → Nat → List NEvent
  | 0, _, _ => []
  | fuel + 1, i, delay =>
    NEvent.attempt i ::
      if env i = .status 200 then []
      else NEvent.sleep delay :: notifyAttempts env fuel (i + 1) (delay * 2)

/-- The payload `notify_grader` actually sends: `if error_message:`
merges the error under the `"error"` key (mutating the caller's dict in
place); `None` and the empty string are falsy and leave it untouched. -/

def notifyPayload (payload : Dict) (error_message : Option String) : Dict :=
  match error_message with
  | some e => if e = "" then payload else setItem payload "error" (.str e)
  | none => payload

/-- `notify_grader` (app.py:98-115): returns the caller's payload dict
as it is after the call (the in-place mutation) and the trace of
attempts and sleeps. It never raises and returns nothing else. -/

def notify_grader (env : Nat → PostOutcome) (url : String) (payload : Dict)
    (error_message : Option String) : Dict × List NEvent :=
  (notifyPayload payload error_message, notifyAttempts env 4 0 1)

/-- Number of delivery attempts in a notifier trace. -/

def countAttempts (evs : List NEvent) : Nat :=
  (evs.filter fun e => match e with | .attempt _ => true | _ => false).length

/-! ## Job Orchestrator (`process_task_in_background`, app.py:126-212)
and HTTP handler (`handle_task_request`, app.py:117-124) -/

/-- The generation-service response: HTTP status, raw body text, and
the result of `response.json()["choices"][0]["message"]["content"]`
(which itself can raise on an unexpected body). -/

structure GenResp where
  status_code : Nat
  text : String
  content : Except PyErr String

/-- Environment for one background execution: the outcome of the
generation POST and the GitHub environment. -/

structure OrchEnv where
  genPost : Except PyErr GenResp
  gh : GhEnv

/-- One observable orchestrator effect: invoking the publisher (with
the assembled file mapping), an individual repository-hosting
operation, or a notifier call (with the payload as sent). -/

inductive Ev where
  | publish (repo_name : String) (files : List (String × String))
  | gh (g : GhEv)
  | notify (url : String) (sent : Dict) (error_message : Option String)
deriving Repr, DecidableEq

/-- `MIT_LICENSE_TEXT` (app.py:29-51). -/

def MIT_LICENSE_TEXT : String :=
  "\nMIT License\n\nCopyright (c) 2025\n\nPermission is hereby granted, free of charge, to any person obtaining a copy\nof this software and associated documentation files (the \"Software\"), to deal\nin the Software without restriction, including without limitation the rights\nto use, copy, modify, merge, publish, distribute, sublicense, and/or sell\ncopies of the Software, and to permit persons to whom the Software is\nfurnished to do so, subject to the following conditions:\n\nThe above copyright notice and this permission notice shall be included in all\ncopies or substantial portions of the Software.\n\nTHE SOFTWARE IS PROVIDED \"AS IS\", WITHOUT WARRANTY OF ANY KIND, EXPRESS OR\nIMPLIED, INCLUDING BUT NOT LIMITED TO THE WARRANTIES OF MERCHANTABILITY,\nFITNESS FOR A PARTICULAR PURPOSE AND NONINFRINGEMENT. IN NO EVENT SHALL THE\nAUTHORS OR COPYRIGHT HOLDERS BE LIABLE FOR ANY CLAIM, DAMAGES OR OTHER\nLIABILITY, WHETHER IN AN ACTION OF CONTRACT, TORT OR OTHERWISE, ARISING FROM,\nOUT OF OR IN CONNECTION WITH THE SOFTWARE OR THE USE OR OTHER DEALINGS IN THE\nSOFTWARE.\n"

/-- The templated `readme_content` f-string (app.py:171-187), with the
source's indentation. -/

def readmeFor (repo_name brief : String) : String :=
  "\n        # Project: " ++ repo_name ++
  "\n\n        ## Summary\n        This project was auto-generated for the TDS Project 1 in response to the brief:\n        \"" ++
  brief ++
  "\"\n\n        ## Usage\n        This is a static site. The deployed version is available via GitHub Pages.\n\n        ## Code Explanation\n        The `index.html` file is a self-contained application generated by an LLM.\n        Any attachments, like `data.csv`, are fetched by the HTML file.\n\n        ## License\n        This project is licensed under the MIT License.\n        "

/-- Python `str.strip()`: drop leading and trailing whitespace. -/

def pyStrip (l : List Char) : List Char :=
  ((l.dropWhile Char.isWhitespace).reverse.dropWhile Char.isWhitespace).reverse

/-- Fence stripping (app.py:158-162): `.strip()` the first choice's
content, drop a leading 7-character ` ```html ` fence if present
(`generated_code[7:]`), then drop a trailing ` ``` ` fence if present
(`generated_code[:-3]`) — one layer only. -/

def stripFences (s : String) : String :=
  let t := pyStrip s.data
  let t2 := if ("```html".data).isPrefixOf t then t.drop 7 else t
  let t3 := if ("```".data).isSuffixOf t2 then t2.take (t2.length - 3) else t2
  String.mk t3

/-- The attachment loop (app.py:193-197): decode each attachment; a
truthy result (not `None`, not `""`) is stored into `files_to_commit`
under the attachment's name; falsy results are skipped. -/

def addAttachments (files : List (String × String)) :
    List Attachment → List (String × String)
  | [] => files
  | a :: rest =>
    match decode_attachment a with
    | some content =>
      if content = "" then addAttachments files rest
      else addAttachments (setItem files a.name content) rest
    | none => addAttachments files rest

/-- The base notification payload built at app.py:128-133. -/

def basePayload (request : TaskRequest) : Dict :=
  [("email", .str request.email), ("task", .str request.task),
   ("round", .num request.round), ("nonce", .str request.nonce)]

/-- A returned `Option String` (a possibly-absent publisher result) as
the JSON value Python would serialize (`None` as null). -/

def joptStr : Option String → JVal
  | some s => .str s
  | none => .null

/-- `process_task_in_background` (app.py:126-212) as the list of its
observable effects. The prompt that the source assembles into the
generation POST is absorbed into the abstract `genPost` outcome; the
first `try` block fails when the POST raises, when its status is not
200 (the explicit `raise` with the `AI Pipe API Error` text), or when
content extraction raises, and each failure notifies with the
`LLM generation failed:` prefix and terminates. The second `try` block
assembles the file mapping, invokes the publisher, raises when
`repo_url` is falsy (notify `Deployment failed:`), and otherwise sends
the success payload. `genExtract` is the outcome of the first `try`
block: the raised error's text, or the fence-stripped page. -/

def genExtract (env : OrchEnv) : Except String String :=
  match env.genPost with
  | .error e => .error e.message
  | .ok resp =>
    if resp.status_code ≠ 200 then
      .error ("AI Pipe API Error: " ++ toString resp.status_code ++ " - " ++ resp.text)
    else
      match resp.content with
      | .error e => .error e.message
      | .ok raw => .ok (stripFences raw)

def process_task_in_background (env : OrchEnv) (request : TaskRequest) : List Ev :=
  let notification_payload := basePayload request
  match genExtract env with
  | .error cause =>
    let msg := "LLM generation failed: " ++ cause
    [.notify request.evaluation_url (notifyPayload notification_payload (some msg)) (some msg)]
  | .ok generated_code =>
    let repo_name := request.task
    let commit_message := "Round " ++ toString request.round ++ ": " ++ request.brief
    let files_to_commit := addAttachments
      [("index.html", generated_code), ("README.md", readmeFor repo_name request.brief),
       ("LICENSE", MIT_LICENSE_TEXT)]
      request.attachments
    match create_or_update_repo env.gh repo_name files_to_commit commit_message with
    | ((repo_url, pages_url, commit_sha), ghEvs) =>
      let ghTrace := Ev.publish repo_name files_to_commit :: ghEvs.map Ev.gh
      match repo_url with
      | none =>
        let msg := "Deployment failed: Failed to create or update GitHub repository."
        ghTrace ++
          [.notify request.evaluation_url (notifyPayload notification_payload (some msg))
            (some msg)]
      | some ru =>
        if ru = "" then
          let msg := "Deployment failed: Failed to create or update GitHub repository."
          ghTrace ++
            [.notify request.evaluation_url (notifyPayload notification_payload (some msg))
              (some msg)]
        else
          let payload2 := setItem (setItem (setItem notification_payload
            "repo_url" (.str ru)) "commit_sha" (joptStr commit_sha)) "pages_url"
            (joptStr pages_url)
          ghTrace ++ [.notify request.evaluation_url (notifyPayload payload2 none) none]

/-- `handle_task_request` (app.py:117-124): compare the supplied secret
with the configured one (`os.environ.get` may yield `None`, which never
equals a string); on mismatch return the rejection body and schedule
nothing; otherwise schedule the background task and acknowledge. -/

def handle_task_request (MY_SECRET : Option String) (request : TaskRequest) :
    Dict × List TaskRequest :=
  if some request.secret ≠ MY_SECRET then
    ([("status", .str "error"), ("message", .str "Invalid secret")], [])
  else
    ([("status", .str "Request received. Processing in background.")], [request])

/-- Everything the system does for one inbound request: the background
effects of every scheduled task. -/

def systemEvents (MY_SECRET : Option String) (env : OrchEnv) (request : TaskRequest) :
    List Ev :=
  ((handle_task_request MY_SECRET request).2).foldr
    (fun r acc => process_task_in_background env r ++ acc) []

/-- The notifier calls in an orchestrator trace. -/

def notifyEvents (t : List Ev) : List Ev :=
  t.filter fun e => match e with | .notify _ _ _ => true | _ => false

/-- The repository operations (publisher invocations and individual
hosting-service calls) in an orchestrator trace. -/

def ghOps (t : List Ev) : List Ev :=
  t.filter fun e => match e with | .notify _ _ _ => false | _ => true

/-- The content published at `path` by the trace's (first) publisher
invocation, if any. -/

def publishedFile (t : List Ev) (path : String) : Option String :=
  match t.filterMap (fun e => match e with
    | .publish _ files => some files
    | _ => none) with
  | files :: _ => getItem files path
  | [] => none

/-- A payload carrying the success augmentation and no error. -/

def successShaped (d : Dict) : Prop :=
  (getItem d "repo_url").isSome ∧ (getItem d "commit_sha").isSome ∧
    (getItem d "pages_url").isSome ∧ getItem d "error" = none

/-- A payload carrying the error augmentation and no success fields. -/

def errorShaped (d : Dict) : Prop :=
  (getItem d "error").isSome ∧ getItem d "repo_url" = none ∧
    getItem d "commit_sha" = none ∧ getItem d "pages_url" = none

/-- A hosting environment in which every operation succeeds (files are
absent, so the loop takes the create branch). -/

def okGhEnv : GhEnv where
  get_user := .ok { login := "owner" }
  get_repo := fun _ => .ok { html_url := "https://github.com/owner/demo-site" }
  create_repo := fun _ => .ok { html_url := "https://github.com/owner/demo-site" }
  get_contents := fun _ _ => .error (.github "404 not found")
  update_file := fun _ _ _ _ _ => .ok ()
  create_file := fun _ _ _ _ => .ok ()
  post_pages := fun _ => .ok { status_code := 201, jsonMessage := .ok "" }
  get_branch := fun _ _ => .ok "abc123"

/-- The generation response of end-to-end scenario A (spec §8): HTTP
200 with a fenced page. -/

def scenarioAResp : GenResp where
  status_code := 200
  text := ""
  content := .ok " ```html<div>calc</div>``` "

/-- End-to-end scenario A environment. -/

def scenarioAEnv : OrchEnv where
  genPost := .ok scenarioAResp
  gh := okGhEnv

/-- End-to-end scenario A job: `demo-site`, "a calculator", no attachments. -/

def scenarioAReq : TaskRequest where
  email := "student@example.com"
  secret := "s3cr3t"
  task := "demo-site"
  round := 1
  nonce := "nonce-1"
  brief := "a calculator"
  checks := []
  evaluation_url := "https://grader.example.com/callback"
  attachments := []

/-- End-to-end scenario C job: one good attachment and one whose
payload is not valid base64. -/

def scenarioCReq : TaskRequest where
  email := "student@example.com"
  secret := "s3cr3t"
  task := "demo-site"
  round := 2
  nonce := "nonce-2"
  brief := "a site with data"
  checks := []
  evaluation_url := "https://grader.example.com/callback"
  attachments := [{ name := "data.csv", url := "data:text/csv;base64,aGk=" },
                  { name := "bad.bin", url := "data:;base64,AAA" }]

/-- The generation response of scenario C: plain success. -/

def scenarioCResp : GenResp where
  status_code := 200
  text := ""
  content := .ok "<html></html>"

/-- Environment for scenario C: generation succeeds plainly. -/

def scenarioCEnv : OrchEnv where
  genPost := .ok scenarioCResp
  gh := okGhEnv

/-- The generation response of scenario B: HTTP 500. -/

def scenarioBResp : GenResp where
  status_code := 500
  text := "internal error"
  content := .error (.other "no json")

/-- Environment whose generation service answers HTTP 500 (scenario B). -/

def scenarioBEnv : OrchEnv where
  genPost := .ok scenarioBResp
  gh := okGhEnv

/-- A job whose supplied secret does not match the configured secret. -/

def mismatchReq : TaskRequest where
  email := "student@example.com"
  secret := "wrong"
  task := "demo-site"
  round := 1
  nonce := "nonce-1"
  brief := "a calculator"
  checks := []
  evaluation_url := "https://grader.example.com/callback"
  attachments := []

/-! ## Theorems -/

theorem b64Char_spec (n : Nat) (h : n < 64) :
    b64Val (b64Char n) = some n ∧ (b64Char n).toNat < 128 ∧ b64Char n ≠ '=' := by
  have hfin : ∀ m : Fin 64,
      b64Val (b64Char m.val) = some m.val ∧ (b64Char m.val).toNat < 128 ∧ b64Char m.val ≠ '=' := by
    decide
  exact hfin ⟨n, h⟩

theorem b64Keep_b64Char (n : Nat) (h : n < 64) : b64Keep (b64Char n) = true := by
  simp [b64Keep, (b64Char_spec n h).1]

theorem b64Keep_pad : b64Keep '=' = true := rfl

theorem filter_b64encodeBytes (bs : List Nat) (h : ∀ x ∈ bs, x < 256) :
    (b64encodeBytes bs).filter b64Keep = b64encodeBytes bs := by
  induction bs using b64encodeBytes.induct with
  | case1 => rfl
  | case2 x =>
    have hx : x < 256 := h x (by simp)
    simp [b64encodeBytes, List.filter_cons,
      b64Keep_b64Char (x / 4) (by omega), b64Keep_b64Char (x % 4 * 16) (by omega), b64Keep_pad]
  | case3 x y =>
    have hx : x < 256 := h x (by simp)
    have hy : y < 256 := h y (by simp)
    simp [b64encodeBytes, List.filter_cons,
      b64Keep_b64Char (x / 4) (by omega), b64Keep_b64Char (x % 4 * 16 + y / 16) (by omega),
      b64Keep_b64Char (y % 16 * 4) (by omega), b64Keep_pad]
  | case4 x y z rest ih =>
    have hx : x < 256 := h x (by simp)
    have hy : y < 256 := h y (by simp)
    have hz : z < 256 := h z (by simp)
    have hrest : ∀ w ∈ rest, w < 256 := fun w hw => h w (by simp [hw])
    simp [b64encodeBytes, List.filter_cons,
      b64Keep_b64Char (x / 4) (by omega), b64Keep_b64Char (x % 4 * 16 + y / 16) (by omega),
      b64Keep_b64Char (y % 16 * 4 + z / 64) (by omega), b64Keep_b64Char (z % 64) (by omega),
      ih hrest]

theorem b64encodeBytes_ascii (bs : List Nat) (h : ∀ x ∈ bs, x < 256) :
    ∀ c ∈ b64encodeBytes bs, c.toNat < 128 := by
  induction bs using b64encodeBytes.induct with
  | case1 => intro c hc; simp [b64encodeBytes] at hc
  | case2 x =>
    have hx : x < 256 := h x (by simp)
    intro c hc
    simp [b64encodeBytes] at hc
    rcases hc with rfl | rfl | rfl
    · exact (b64Char_spec (x / 4) (by omega)).2.1
    · exact (b64Char_spec (x % 4 * 16) (by omega)).2.1
    · decide
  | case3 x y =>
    have hx : x < 256 := h x (by simp)
    have hy : y < 256 := h y (by simp)
    intro c hc
    simp [b64encodeBytes] at hc
    rcases hc with rfl | rfl | rfl | rfl
    · exact (b64Char_spec (x / 4) (by omega)).2.1
    · exact (b64Char_spec (x % 4 * 16 + y / 16) (by omega)).2.1
    · exact (b64Char_spec (y % 16 * 4) (by omega)).2.1
    · decide
  | case4 x y z rest ih =>
    have hx : x < 256 := h x (by simp)
    have hy : y < 256 := h y (by simp)
    have hz : z < 256 := h z (by simp)
    have hrest : ∀ w ∈ rest, w < 256 := fun w hw => h w (by simp [hw])
    intro c hc
    simp [b64encodeBytes] at hc
    rcases hc with rfl | rfl | rfl | rfl | hc
    · exact (b64Char_spec (x / 4) (by omega)).2.1
    · exact (b64Char_spec (x % 4 * 16 + y / 16) (by omega)).2.1
    · exact (b64Char_spec (y % 16 * 4 + z / 64) (by omega)).2.1
    · exact (b64Char_spec (z % 64) (by omega)).2.1
    · exact ih hrest c hc

theorem b64Quanta_encodeBytes (bs : List Nat) (h : ∀ x ∈ bs, x < 256) :
    b64Quanta (b64encodeBytes bs) = some bs := by
  induction bs using b64encodeBytes.induct with
  | case1 => rfl
  | case2 x =>
    have hx : x < 256 := h x (by simp)
    have h1 := b64Char_spec (x / 4) (by omega)
    have h2 := b64Char_spec (x % 4 * 16) (by omega)
    simp only [b64encodeBytes, b64Quanta, h1.1, h2.1]
    rw [show x / 4 * 4 + x % 4 * 16 / 16 = x by omega]
    simp
  | case3 x y =>
    have hx : x < 256 := h x (by simp)
    have hy : y < 256 := h y (by simp)
    have h1 := b64Char_spec (x / 4) (by omega)
    have h2 := b64Char_spec (x % 4 * 16 + y / 16) (by omega)
    have h3 := b64Char_spec (y % 16 * 4) (by omega)
    simp only [b64encodeBytes, b64Quanta, h1.1, h2.1, h3.1, if_neg h3.2.2]
    rw [show x / 4 * 4 + (x % 4 * 16 + y / 16) / 16 = x by omega,
      show (x % 4 * 16 + y / 16) % 16 * 16 + y % 16 * 4 / 4 = y by omega]
    simp
  | case4 x y z rest ih =>
    have hx : x < 256 := h x (by simp)
    have hy : y < 256 := h y (by simp)
    have hz : z < 256 := h z (by simp)
    have hrest : ∀ w ∈ rest, w < 256 := fun w hw => h w (by simp [hw])
    have h1 := b64Char_spec (x / 4) (by omega)
    have h2 := b64Char_spec (x % 4 * 16 + y / 16) (by omega)
    have h3 := b64Char_spec (y % 16 * 4 + z / 64) (by omega)
    have h4 := b64Char_spec (z % 64) (by omega)
    simp only [b64encodeBytes, b64Quanta, h1.1, h2.1, h3.1, h4.1,
      if_neg h3.2.2, if_neg h4.2.2, ih hrest]
    rw [show x / 4 * 4 + (x % 4 * 16 + y / 16) / 16 = x by omega,
      show (x % 4 * 16 + y / 16) % 16 * 16 + (y % 16 * 4 + z / 64) / 4 = y by omega,
      show (y % 16 * 4 + z / 64) % 4 * 64 + z % 64 = z by omega]

theorem b64decode_encodeBytes (bs : List Nat) (h : ∀ x ∈ bs, x < 256) :
    b64decode (String.mk (b64encodeBytes bs)) = some bs := by
  have hall : (b64encodeBytes bs).all (fun c => decide (c.toNat < 128)) = true :=
    List.all_eq_true.mpr fun c hc => decide_eq_true (b64encodeBytes_ascii bs h c hc)
  show (if (b64encodeBytes bs).all (fun c => c.toNat < 128) then
      b64Quanta ((b64encodeBytes bs).filter b64Keep) else none) = some bs
  rw [hall, if_pos rfl, filter_b64encodeBytes bs h, b64Quanta_encodeBytes bs h]

theorem utf8EncodeChar_lt_256 (c : Char) : ∀ x ∈ utf8EncodeChar c, x < 256 := by
  have hv : c.toNat < 0xd800 ∨ (0xdfff < c.toNat ∧ c.toNat < 0x110000) := c.valid
  intro x hx
  unfold utf8EncodeChar at hx
  split at hx
  · simp at hx; omega
  · split at hx
    · simp at hx; rcases hx with rfl | rfl <;> omega
    · split at hx
      · simp at hx; rcases hx with rfl | rfl | rfl <;> omega
      · simp at hx; rcases hx with rfl | rfl | rfl | rfl <;> omega

theorem utf8EncodeList_lt_256 (cs : List Char) : ∀ x ∈ utf8EncodeList cs, x < 256 := by
  induction cs with
  | nil => intro x hx; simp [utf8EncodeList] at hx
  | cons c cs ih =>
    intro x hx
    simp only [utf8EncodeList, List.mem_append] at hx
    rcases hx with hx | hx
    · exact utf8EncodeChar_lt_256 c x hx
    · exact ih x hx

theorem utf8EncodeChar_length_pos (c : Char) : 1 ≤ (utf8EncodeChar c).length := by
  unfold utf8EncodeChar
  split
  · simp
  · split
    · simp
    · split <;> simp

theorem utf8Step_encodeChar (c : Char) (rest : List Nat) :
    utf8Step (utf8EncodeChar c ++ rest) = some (c, rest) := by
  have hv : c.toNat < 0xd800 ∨ (0xdfff < c.toNat ∧ c.toNat < 0x110000) := c.valid
  by_cases h1 : c.toNat < 0x80
  · rw [show utf8EncodeChar c = [c.toNat] from by rw [utf8EncodeChar, if_pos h1]]
    show utf8Step (c.toNat :: rest) = _
    simp only [utf8Step]
    rw [if_pos h1, Char.ofNat_toNat]
  · by_cases h2 : c.toNat < 0x800
    · rw [show utf8EncodeChar c = [0xC0 + c.toNat / 64, 0x80 + c.toNat % 64] from by
        rw [utf8EncodeChar, if_neg h1, if_pos h2]]
      show utf8Step ((0xC0 + c.toNat / 64) :: (0x80 + c.toNat % 64) :: rest) = _
      simp only [utf8Step]
      rw [if_neg (by omega), if_neg (by omega), if_pos (by omega), if_pos (by omega),
        show (0xC0 + c.toNat / 64 - 0xC0) * 64 + (0x80 + c.toNat % 64 - 0x80) = c.toNat from by
          omega,
        Char.ofNat_toNat]
    · by_cases h3 : c.toNat < 0x10000
      · rw [show utf8EncodeChar c =
            [0xE0 + c.toNat / 4096, 0x80 + c.toNat / 64 % 64, 0x80 + c.toNat % 64] from by
          rw [utf8EncodeChar, if_neg h1, if_neg h2, if_pos h3]]
        show utf8Step ((0xE0 + c.toNat / 4096) :: (0x80 + c.toNat / 64 % 64) ::
          (0x80 + c.toNat % 64) :: rest) = _
        simp only [utf8Step]
        rw [if_neg (by omega), if_neg (by omega), if_neg (by omega), if_pos (by omega),
          if_pos (by omega),
          show (0xE0 + c.toNat / 4096 - 0xE0) * 4096 + (0x80 + c.toNat / 64 % 64 - 0x80) * 64 +
            (0x80 + c.toNat % 64 - 0x80) = c.toNat from by omega,
          if_pos (by omega), Char.ofNat_toNat]
      · have h4 : c.toNat < 0x110000 := by omega
        rw [show utf8EncodeChar c =
            [0xF0 + c.toNat / 262144, 0x80 + c.toNat / 4096 % 64, 0x80 + c.toNat / 64 % 64,
             0x80 + c.toNat % 64] from by
          rw [utf8EncodeChar, if_neg h1, if_neg h2, if_neg h3]]
        show utf8Step ((0xF0 + c.toNat / 262144) :: (0x80 + c.toNat / 4096 % 64) ::
          (0x80 + c.toNat / 64 % 64) :: (0x80 + c.toNat % 64) :: rest) = _
        simp only [utf8Step]
        rw [if_neg (by omega), if_neg (by omega), if_neg (by omega), if_neg (by omega),
          if_pos (by omega), if_pos (by omega),
          show (0xF0 + c.toNat / 262144 - 0xF0) * 262144 +
            (0x80 + c.toNat / 4096 % 64 - 0x80) * 4096 + (0x80 + c.toNat / 64 % 64 - 0x80) * 64 +
            (0x80 + c.toNat % 64 - 0x80) = c.toNat from by omega,
          if_pos (by omega), Char.ofNat_toNat]

theorem utf8DecodeGo_encodeList (cs : List Char) :
    ∀ fuel, (utf8EncodeList cs).length ≤ fuel →
      utf8DecodeGo fuel (utf8EncodeList cs) = some cs := by
  induction cs with
  | nil => intro fuel h; cases fuel <;> rfl
  | cons c cs ih =>
    intro fuel h
    have hlen := utf8EncodeChar_length_pos c
    match fuel with
    | 0 =>
      exfalso
      simp only [utf8EncodeList, List.length_append, Nat.le_zero] at h
      omega
    | fuel + 1 =>
      have h2 : (utf8EncodeList cs).length ≤ fuel := by
        simp only [utf8EncodeList, List.length_append] at h
        omega
      obtain ⟨b, bs, hb⟩ : ∃ b bs, utf8EncodeChar c = b :: bs := by
        cases hE : utf8EncodeChar c with
        | nil => rw [hE] at hlen; simp at hlen
        | cons b bs => exact ⟨b, bs, rfl⟩
      have hstep : utf8Step (b :: (bs ++ utf8EncodeList cs)) = some (c, utf8EncodeList cs) := by
        rw [← List.cons_append, ← hb]
        exact utf8Step_encodeChar c _
      show utf8DecodeGo (fuel + 1) (utf8EncodeChar c ++ utf8EncodeList cs) = _
      rw [hb, List.cons_append]
      simp only [utf8DecodeGo, hstep, ih fuel h2, Option.map]

theorem utf8_roundtrip (cs : List Char) :
    utf8DecodeList (utf8EncodeList cs) = some cs :=
  utf8DecodeGo_encodeList cs _ le_rfl

theorem getItem_setItem_self {α : Type} (d : List (String × α)) (k : String) (v : α) :
    getItem (setItem d k v) k = some v := by
  induction d with
  | nil => simp [setItem, getItem]
  | cons kv rest ih =>
    obtain ⟨k0, w⟩ := kv
    by_cases h : k0 = k
    · simp [setItem, getItem, h]
    · simp [setItem, getItem, h, ih]

theorem getItem_setItem_ne {α : Type} (d : List (String × α)) (k k2 : String) (v : α)
    (h : k ≠ k2) : getItem (setItem d k v) k2 = getItem d k2 := by
  induction d with
  | nil => simp [setItem, getItem, h]
  | cons kv rest ih =>
    obtain ⟨k0, w⟩ := kv
    by_cases h0 : k0 = k
    · subst h0
      simp [setItem, getItem, h]
    · simp [setItem, getItem, h0, ih]

theorem splitFirstComma_append (before after : List Char) (h : ',' ∉ before) :
    splitFirstComma (before ++ ',' :: after) = some (before, after) := by
  induction before with
  | nil => simp [splitFirstComma]
  | cons c cs ih =>
    have hc : c ≠ ',' := fun hcc => h (by simp [hcc])
    have hcs : ',' ∉ cs := fun hm => h (by simp [hm])
    simp only [List.cons_append, splitFirstComma, if_neg hc]
    rw [show cs.append (',' :: after) = cs ++ ',' :: after from rfl, ih hcs]

/-! ## Helper lemmas -/

theorem splitFirstComma_of_not_mem (l : List Char) (h : ',' ∉ l) :
    splitFirstComma l = none := by
  induction l with
  | nil => rfl
  | cons c cs ih =>
    have hc : c ≠ ',' := fun hcc => h (by simp [hcc])
    have hcs : ',' ∉ cs := fun hm => h (by simp [hm])
    simp [splitFirstComma, if_neg hc, ih hcs]

theorem decode_attachment_no_comma (a : Attachment) (h : ',' ∉ a.url.data) :
    decode_attachment a = none := by
  unfold decode_attachment
  rw [splitFirstComma_of_not_mem a.url.data h]

theorem addAttachments_of_none (a : Attachment) (hdec : decode_attachment a = none)
    (files : List (String × String)) (xs ys : List Attachment) :
    addAttachments files (xs ++ a :: ys) = addAttachments files (xs ++ ys) := by
  induction xs generalizing files with
  | nil => simp [addAttachments, hdec]
  | cons x xs ih =>
    cases hdx : decode_attachment x with
    | none => simp [addAttachments, hdx, ih]
    | some c =>
      by_cases hc : c = "" <;> simp [addAttachments, hdx, hc, ih]

theorem addAttachments_of_empty (a : Attachment) (hdec : decode_attachment a = some "")
    (files : List (String × String)) (xs ys : List Attachment) :
    addAttachments files (xs ++ a :: ys) = addAttachments files (xs ++ ys) := by
  induction xs generalizing files with
  | nil => simp [addAttachments, hdec]
  | cons x xs ih =>
    cases hdx : decode_attachment x with
    | none => simp [addAttachments, hdx, ih]
    | some c =>
      by_cases hc : c = "" <;> simp [addAttachments, hdx, hc, ih]

theorem string_append_ne_empty (p s : String) (hp : p.data ≠ []) : p ++ s ≠ "" := by
  intro h
  have hd := congrArg String.data h
  rw [String.data_append] at hd
  exact hp (List.append_eq_nil.mp hd).1

/-! ## Claim theorems -/

/-- C1: every inbound job whose supplied shared secret differs from the
configured secret gets a synchronous rejection response (status
`"error"`, message `"Invalid secret"`), no background task is
scheduled, and consequently no generation, publish, or notification
effect occurs for that job. -/

theorem secret_mismatch_rejected (MY_SECRET : Option String) (request : TaskRequest)
    (h : some request.secret ≠ MY_SECRET) :
    (handle_task_request MY_SECRET request).2 = [] ∧
    getItem (handle_task_request MY_SECRET request).1 "status" = some (.str "error") ∧
    getItem (handle_task_request MY_SECRET request).1 "message" =
      some (.str "Invalid secret") ∧
    ∀ env, systemEvents MY_SECRET env request = [] := by
  have hh : handle_task_request MY_SECRET request =
      ([("status", .str "error"), ("message", .str "Invalid secret")], []) := by
    simp [handle_task_request, h]
  refine ⟨by rw [hh], by rw [hh]; rfl, by rw [hh]; rfl, fun env => ?_⟩
  simp [systemEvents, hh]

/-- C1 witness: a concrete job with the wrong secret is rejected and
produces no effects. -/

theorem secret_mismatch_rejected_witness :
    (handle_task_request (some "s3cr3t") mismatchReq).2 = [] ∧
    getItem (handle_task_request (some "s3cr3t") mismatchReq).1 "status" =
      some (.str "error") ∧
    getItem (handle_task_request (some "s3cr3t") mismatchReq).1 "message" =
      some (.str "Invalid secret") ∧
    ∀ env, systemEvents (some "s3cr3t") env mismatchReq = [] :=
  secret_mismatch_rejected (some "s3cr3t") mismatchReq (by decide)

/-- C2: the Repository Publisher is total (every exception is caught at
its boundary: the model returns a value for every environment), and its
result triple is atomic as a group — either all three of repository
URL, site URL and commit id are present, or all three are `none`. -/

theorem publisher_result_atomic (env : GhEnv) (repo_name : String)
    (files_to_commit : List (String × String)) (commit_message : String) :
    ((create_or_update_repo env repo_name files_to_commit commit_message).1.1.isSome ∧
     (create_or_update_repo env repo_name files_to_commit commit_message).1.2.1.isSome ∧
     (create_or_update_repo env repo_name files_to_commit commit_message).1.2.2.isSome) ∨
    ((create_or_update_repo env repo_name files_to_commit commit_message).1.1 = none ∧
     (create_or_update_repo env repo_name files_to_commit commit_message).1.2.1 = none ∧
     (create_or_update_repo env repo_name files_to_commit commit_message).1.2.2 = none) := by
  unfold create_or_update_repo
  cases create_or_update_repoBody env repo_name files_to_commit commit_message with
  | mk r evs =>
    cases r with
    | error e => simp
    | ok t =>
      obtain ⟨a, b, c⟩ := t
      simp

/-- C9: an attachment whose decode succeeds with empty content is
omitted from the publish file set exactly as a failed decode is,
because inclusion is gated on the truthiness of the decoded content. -/

theorem empty_content_attachment_omitted (a : Attachment)
    (hdec : decode_attachment a = some "") (files : List (String × String))
    (xs ys : List Attachment) :
    addAttachments files (xs ++ a :: ys) = addAttachments files (xs ++ ys) :=
  addAttachments_of_empty a hdec files xs ys

/-- C9 witness: the attachment `{url := ","}` decodes to `""` and is
omitted from a concrete file set. -/

theorem empty_content_attachment_omitted_witness :
    addAttachments [("index.html", "x")]
        ([] ++ ({ name := "empty.txt", url := "," } : Attachment) :: []) =
      addAttachments [("index.html", "x")] ([] ++ []) :=
  empty_content_attachment_omitted { name := "empty.txt", url := "," } (by decide)
    [("index.html", "x")] [] []

/-- C10 counterexample: calling the notifier with the non-nil error
message `""` leaves the payload entirely unmutated — no `"error"` key
is added — refuting the claim as stated for that input. -/

theorem notifier_empty_error_no_mutation :
    (notify_grader (fun _ => .status 200) "https://grader.example.com/callback"
        [("email", JVal.str "student@example.com")] (some "")).1 =
      [("email", JVal.str "student@example.com")] ∧
    getItem (notify_grader (fun _ => .status 200) "https://grader.example.com/callback"
        [("email", JVal.str "student@example.com")] (some "")).1 "error" = none :=
  ⟨rfl, rfl⟩

/-- C10 (amended): with a truthy — non-nil and non-empty — error
message the notifier mutates the caller's payload in place by setting
the `"error"` key before sending, leaving every other key unchanged;
with a nil (or empty) error message the payload is not mutated. -/

theorem notifier_error_mutation (env : Nat → PostOutcome) (url : String) (payload : Dict)
    (e : String) (he : e ≠ "") :
    (notify_grader env url payload (some e)).1 = setItem payload "error" (.str e) ∧
    getItem (notify_grader env url payload (some e)).1 "error" = some (.str e) ∧
    (∀ k, k ≠ "error" →
      getItem (notify_grader env url payload (some e)).1 k = getItem payload k) ∧
    (notify_grader env url payload none).1 = payload ∧
    (notify_grader env url payload (some "")).1 = payload := by
  refine ⟨?_, ?_, ?_, rfl, rfl⟩
  · simp [notify_grader, notifyPayload, he]
  · simp [notify_grader, notifyPayload, he, getItem_setItem_self]
  · intro k hk
    simp [notify_grader, notifyPayload, he,
      getItem_setItem_ne payload "error" k (.str e) (fun hkk => hk hkk.symm)]

/-- C10 witness: concrete mutation with error message `"boom"`. -/

theorem notifier_error_mutation_witness :
    (notify_grader (fun _ => .status 200) "https://grader.example.com/callback"
        [("email", JVal.str "student@example.com")] (some "boom")).1 =
      setItem [("email", JVal.str "student@example.com")] "error" (.str "boom") ∧
    getItem (notify_grader (fun _ => .status 200) "https://grader.example.com/callback"
        [("email", JVal.str "student@example.com")] (some "boom")).1 "error" =
      some (.str "boom") ∧
    (∀ k, k ≠ "error" →
      getItem (notify_grader (fun _ => .status 200) "https://grader.example.com/callback"
          [("email", JVal.str "student@example.com")] (some "boom")).1 k =
        getItem [("email", JVal.str "student@example.com")] k) ∧
    (notify_grader (fun _ => .status 200) "https://grader.example.com/callback"
        [("email", JVal.str "student@example.com")] none).1 =
      [("email", JVal.str "student@example.com")] ∧
    (notify_grader (fun _ => .status 200) "https://grader.example.com/callback"
        [("email", JVal.str "student@example.com")] (some "")).1 =
      [("email", JVal.str "student@example.com")] :=
  notifier_error_mutation (fun _ => .status 200) "https://grader.example.com/callback"
    [("email", JVal.str "student@example.com")] "boom" (by decide)

/-- C6: decoding an attachment whose payload is the well-formed data
URI `<header>,<base64 of utf-8 x>` returns exactly `x`, for every text
`x` and every comma-free header. -/

theorem decode_encode_roundtrip (header name x : String) (h : ',' ∉ header.data) :
    decode_attachment (encodeAttachment header name x) = some x := by
  unfold decode_attachment encodeAttachment
  have hdata : (header ++ "," ++ String.mk (b64encodeBytes (utf8EncodeList x.data))).data =
      header.data ++ ',' :: b64encodeBytes (utf8EncodeList x.data) := by
    rw [String.data_append, String.data_append]
    simp
  simp only [hdata]
  rw [splitFirstComma_append header.data _ h]
  simp only
  rw [b64decode_encodeBytes _ (utf8EncodeList_lt_256 x.data)]
  simp only
  rw [utf8_roundtrip]

/-- C6 witness: a concrete round trip through the encoder. -/

theorem decode_encode_roundtrip_witness :
    decode_attachment (encodeAttachment "data:text/plain;base64" "notes.txt" "hi") =
      some "hi" :=
  decode_encode_roundtrip "data:text/plain;base64" "notes.txt" "hi" (by decide)

/-- C5: a malformed attachment payload — missing comma, invalid base64
(`"AAA"` has incorrect padding), or invalid text encoding (`"/w=="`
decodes to the non-utf-8 byte 0xFF) — yields no content without
raising; the file-set assembly drops exactly that attachment and keeps
everything else, and in end-to-end scenario C the generated page,
README, LICENSE and the good attachment are published, the bad one is
absent, and the job's one notification carries no error. -/

theorem malformed_attachment_absorbed :
    (∀ a : Attachment, ',' ∉ a.url.data → decode_attachment a = none) ∧
    decode_attachment { name := "bad.bin", url := "data:;base64,AAA" } = none ∧
    decode_attachment { name := "bad.bin", url := "data:;base64,/w==" } = none ∧
    (∀ (a : Attachment) (files : List (String × String)) (xs ys : List Attachment),
      decode_attachment a = none →
      addAttachments files (xs ++ a :: ys) = addAttachments files (xs ++ ys)) ∧
    publishedFile (process_task_in_background scenarioCEnv scenarioCReq) "bad.bin" = none ∧
    publishedFile (process_task_in_background scenarioCEnv scenarioCReq) "data.csv" =
      some "hi" ∧
    (publishedFile (process_task_in_background scenarioCEnv scenarioCReq) "index.html").isSome
      = true ∧
    (publishedFile (process_task_in_background scenarioCEnv scenarioCReq) "README.md").isSome
      = true ∧
    (publishedFile (process_task_in_background scenarioCEnv scenarioCReq) "LICENSE").isSome
      = true ∧
    ((notifyEvents (process_task_in_background scenarioCEnv scenarioCReq)).all fun e =>
      match e with
      | .notify _ _ err => err.isNone
      | _ => false) = true :=
  ⟨decode_attachment_no_comma, rfl, rfl,
   fun a files xs ys h => addAttachments_of_none a h files xs ys,
   rfl, rfl, rfl, rfl, rfl, rfl⟩

/-- C5 witness: the universally quantified parts applied to a concrete
comma-free attachment and a concrete undecodable attachment. -/

theorem malformed_attachment_absorbed_witness :
    decode_attachment { name := "x.bin", url := "nocomma" } = none ∧
    addAttachments [("index.html", "x")]
        ([] ++ ({ name := "bad.bin", url := "data:;base64,AAA" } : Attachment) :: []) =
      addAttachments [("index.html", "x")] ([] ++ []) :=
  ⟨malformed_attachment_absorbed.1 { name := "x.bin", url := "nocomma" } (by decide),
   malformed_attachment_absorbed.2.2.2.1 { name := "bad.bin", url := "data:;base64,AAA" }
     [("index.html", "x")] [] [] (by decide)⟩

/-- C3: the notifier attempts delivery at most 4 times; only HTTP 200
counts as success and ends the loop immediately after the successful
attempt; against an always-failing endpoint it makes exactly 4 attempts
with waits of 1, 2, 4 time units between them (the source also sleeps 8
once more before giving up) and then stops. -/

theorem notifier_retry_contract (env : Nat → PostOutcome) (url : String) (payload : Dict)
    (error_message : Option String) :
    countAttempts (notify_grader env url payload error_message).2 ≤ 4 ∧
    ((∀ i, i < 4 → env i ≠ .status 200) →
      (notify_grader env url payload error_message).2 =
        [.attempt 0, .sleep 1, .attempt 1, .sleep 2, .attempt 2, .sleep 4, .attempt 3,
         .sleep 8]) ∧
    (∀ i, i < 4 → env i = .status 200 → (∀ j, j < i → env j ≠ .status 200) →
      countAttempts (notify_grader env url payload error_message).2 = i + 1 ∧
      (notify_grader env url payload error_message).2.getLast? = some (.attempt i)) := by
  have hng : (notify_grader env url payload error_message).2 = notifyAttempts env 4 0 1 := rfl
  rw [hng]
  by_cases h0 : env 0 = .status 200
  · have ht : notifyAttempts env 4 0 1 = [.attempt 0] := by
      simp [notifyAttempts, h0]
    rw [ht]
    refine ⟨by decide, fun hall => absurd h0 (hall 0 (by omega)), ?_⟩
    intro i hi hs hf
    interval_cases i
    · exact ⟨by decide, by decide⟩
    · exact absurd h0 (hf 0 (by omega))
    · exact absurd h0 (hf 0 (by omega))
    · exact absurd h0 (hf 0 (by omega))
  · by_cases h1 : env 1 = .status 200
    · have ht : notifyAttempts env 4 0 1 = [.attempt 0, .sleep 1, .attempt 1] := by
        simp [notifyAttempts, h0, h1]
      rw [ht]
      refine ⟨by decide, fun hall => absurd h1 (hall 1 (by omega)), ?_⟩
      intro i hi hs hf
      interval_cases i
      · exact absurd hs h0
      · exact ⟨by decide, by decide⟩
      · exact absurd h1 (hf 1 (by omega))
      · exact absurd h1 (hf 1 (by omega))
    · by_cases h2 : env 2 = .status 200
      · have ht : notifyAttempts env 4 0 1 =
            [.attempt 0, .sleep 1, .attempt 1, .sleep 2, .attempt 2] := by
          simp [notifyAttempts, h0, h1, h2]
        rw [ht]
        refine ⟨by decide, fun hall => absurd h2 (hall 2 (by omega)), ?_⟩
        intro i hi hs hf
        interval_cases i
        · exact absurd hs h0
        · exact absurd hs h1
        · exact ⟨by decide, by decide⟩
        · exact absurd h2 (hf 2 (by omega))
      · by_cases h3 : env 3 = .status 200
        · have ht : notifyAttempts env 4 0 1 =
              [.attempt 0, .sleep 1, .attempt 1, .sleep 2, .attempt 2, .sleep 4,
               .attempt 3] := by
            simp [notifyAttempts, h0, h1, h2, h3]
          rw [ht]
          refine ⟨by decide, fun hall => absurd h3 (hall 3 (by omega)), ?_⟩
          intro i hi hs hf
          interval_cases i
          · exact absurd hs h0
          · exact absurd hs h1
          · exact absurd hs h2
          · exact ⟨by decide, by decide⟩
        · have ht : notifyAttempts env 4 0 1 =
              [.attempt 0, .sleep 1, .attempt 1, .sleep 2, .attempt 2, .sleep 4, .attempt 3,
               .sleep 8] := by
            simp [notifyAttempts, h0, h1, h2, h3]
          rw [ht]
          refine ⟨by decide, fun _ => rfl, ?_⟩
          intro i hi hs hf
          interval_cases i
          · exact absurd hs h0
          · exact absurd hs h1
          · exact absurd hs h2
          · exact absurd hs h3

/-- C3 witness: against a concrete endpoint answering 500 forever, the
notifier's trace is exactly four attempts with waits 1, 2, 4 between
them (and the final sleep of 8), then it stops. -/

theorem notifier_retry_contract_witness :
    (notify_grader (fun _ => .status 500) "https://grader.example.com/callback"
        [("email", JVal.str "student@example.com")] none).2 =
      [.attempt 0, .sleep 1, .attempt 1, .sleep 2, .attempt 2, .sleep 4, .attempt 3,
       .sleep 8] :=
  (notifier_retry_contract (fun _ => .status 500) "https://grader.example.com/callback"
    [("email", JVal.str "student@example.com")] none).2.1 (by decide)

theorem genExtract_non200 (env : OrchEnv) (resp : GenResp) (hpost : env.genPost = .ok resp)
    (hstatus : resp.status_code ≠ 200) :
    genExtract env =
      .error ("AI Pipe API Error: " ++ toString resp.status_code ++ " - " ++ resp.text) := by
  unfold genExtract
  rw [hpost]
  simp [hstatus]

theorem process_of_genError (env : OrchEnv) (request : TaskRequest) (cause : String)
    (h : genExtract env = .error cause) :
    process_task_in_background env request =
      [.notify request.evaluation_url
        (notifyPayload (basePayload request) (some ("LLM generation failed: " ++ cause)))
        (some ("LLM generation failed: " ++ cause))] := by
  unfold process_task_in_background
  rw [h]

/-- C4: when the generation service call returns a non-success status,
the orchestrator terminates the job after one notification whose error
is `"LLM generation failed: "` followed by the cause, and performs no
repository operation (no publisher invocation, no create, file write,
hosting-enable or commit lookup). -/

theorem generation_failure_notifies_and_stops (env : OrchEnv) (request : TaskRequest)
    (resp : GenResp) (hpost : env.genPost = .ok resp) (hstatus : resp.status_code ≠ 200) :
    ghOps (process_task_in_background env request) = [] ∧
    ∃ cause,
      process_task_in_background env request =
        [.notify request.evaluation_url
          (notifyPayload (basePayload request) (some ("LLM generation failed: " ++ cause)))
          (some ("LLM generation failed: " ++ cause))] := by
  have hproc := process_of_genError env request _ (genExtract_non200 env resp hpost hstatus)
  rw [hproc]
  exact ⟨rfl, ⟨_, rfl⟩⟩

/-- C4 witness: with the scenario-B environment (HTTP 500) the job
produces only the tagged error notification and touches no repository. -/

theorem generation_failure_notifies_and_stops_witness :
    ghOps (process_task_in_background scenarioBEnv scenarioAReq) = [] ∧
    ∃ cause,
      process_task_in_background scenarioBEnv scenarioAReq =
        [.notify scenarioAReq.evaluation_url
          (notifyPayload (basePayload scenarioAReq)
            (some ("LLM generation failed: " ++ cause)))
          (some ("LLM generation failed: " ++ cause))] :=
  generation_failure_notifies_and_stops scenarioBEnv scenarioAReq scenarioBResp rfl
    (by decide)

/-- C7: the Content Generator output handling strips whitespace, then
one leading ` ```html ` fence and one trailing ` ``` ` fence — a single
layer, with no recursive removal (second conjunct) — and in end-to-end
scenario A the published `index.html` equals `<div>calc</div>` and the
one notification carries repo_url, commit_sha and pages_url with no
error. -/

theorem fence_stripping_single_layer :
    stripFences " ```html<div>calc</div>``` " = "<div>calc</div>" ∧
    stripFences "```html```html<p>x</p>``````" = "```html<p>x</p>```" ∧
    publishedFile (process_task_in_background scenarioAEnv scenarioAReq) "index.html" =
      some "<div>calc</div>" ∧
    ((notifyEvents (process_task_in_background scenarioAEnv scenarioAReq)).all fun e =>
      match e with
      | .notify _ sent err =>
        (getItem sent "repo_url").isSome && (getItem sent "commit_sha").isSome &&
          (getItem sent "pages_url").isSome && err.isNone
      | _ => false) = true ∧
    (notifyEvents (process_task_in_background scenarioAEnv scenarioAReq)).length = 1 :=
  ⟨rfl, rfl, rfl, rfl, rfl⟩

theorem notifyEvents_publish_gh (n : String) (f : List (String × String)) (evs : List GhEv)
    (x : Ev) : notifyEvents (Ev.publish n f :: (evs.map Ev.gh ++ [x])) = notifyEvents [x] := by
  induction evs with
  | nil => rfl
  | cons g gs ih => exact ih

theorem errorShaped_base (request : TaskRequest) (msg : String) (h : msg ≠ "") :
    errorShaped (notifyPayload (basePayload request) (some msg)) := by
  have hnp : notifyPayload (basePayload request) (some msg) =
      setItem (basePayload request) "error" (.str msg) := by
    simp [notifyPayload, h]
  unfold errorShaped
  rw [hnp]
  refine ⟨?_, ?_, ?_, ?_⟩
  · rw [getItem_setItem_self]; rfl
  · rw [getItem_setItem_ne _ _ _ _ (by decide)]; rfl
  · rw [getItem_setItem_ne _ _ _ _ (by decide)]; rfl
  · rw [getItem_setItem_ne _ _ _ _ (by decide)]; rfl

theorem successShaped_pub (request : TaskRequest) (ru : String) (cs pu : JVal) :
    successShaped (setItem (setItem (setItem (basePayload request) "repo_url" (.str ru))
      "commit_sha" cs) "pages_url" pu) := by
  unfold successShaped
  refine ⟨?_, ?_, ?_, ?_⟩
  · rw [getItem_setItem_ne _ _ _ _ (by decide), getItem_setItem_ne _ _ _ _ (by decide),
      getItem_setItem_self]
    rfl
  · rw [getItem_setItem_ne _ _ _ _ (by decide), getItem_setItem_self]; rfl
  · rw [getItem_setItem_self]; rfl
  · rw [getItem_setItem_ne _ _ _ _ (by decide), getItem_setItem_ne _ _ _ _ (by decide),
      getItem_setItem_ne _ _ _ _ (by decide)]
    rfl

/-- C8: every background execution makes exactly one notifier call,
whose sent payload is either error-shaped (an `error` key and none of
the success keys) or success-shaped (repo_url, commit_sha, pages_url
and no `error` key) — never both, never a second call. -/

theorem one_notification_per_job (env : OrchEnv) (request : TaskRequest) :
    ∃ u d e, notifyEvents (process_task_in_background env request) = [.notify u d e] ∧
      ((errorShaped d ∧ e.isSome = true) ∨ (successShaped d ∧ e = none)) := by
  have hBne : ∀ s : String, ("LLM generation failed: " ++ s) ≠ "" :=
    fun s => string_append_ne_empty _ s (by decide)
  have hDne : ("Deployment failed: Failed to create or update GitHub repository." : String)
      ≠ "" := by decide
  cases hgr : genExtract env with
  | error cause =>
    rw [process_of_genError env request cause hgr]
    refine ⟨request.evaluation_url, _, _, rfl, ?_⟩
    exact Or.inl ⟨errorShaped_base request _ (hBne cause), rfl⟩
  | ok generated_code =>
    unfold process_task_in_background
    rw [hgr]
    dsimp only
    rcases hcr : create_or_update_repo env.gh request.task
        (addAttachments
          [("index.html", generated_code),
           ("README.md", readmeFor request.task request.brief),
           ("LICENSE", MIT_LICENSE_TEXT)] request.attachments)
        ("Round " ++ toString request.round ++ ": " ++ request.brief) with
      ⟨⟨repo_url, pages_url, commit_sha⟩, evs⟩
    dsimp only
    cases repo_url with
    | none =>
      refine ⟨request.evaluation_url,
        notifyPayload (basePayload request)
          (some "Deployment failed: Failed to create or update GitHub repository."),
        some "Deployment failed: Failed to create or update GitHub repository.",
        ?_, ?_⟩
      · exact (notifyEvents_publish_gh _ _ _ _).trans rfl
      · exact Or.inl ⟨errorShaped_base request _ hDne, rfl⟩
    | some ru =>
      by_cases hru : ru = ""
      · refine ⟨request.evaluation_url,
          notifyPayload (basePayload request)
            (some "Deployment failed: Failed to create or update GitHub repository."),
          some "Deployment failed: Failed to create or update GitHub repository.",
          ?_, ?_⟩
        · dsimp only
          rw [if_pos hru]
          exact (notifyEvents_publish_gh _ _ _ _).trans rfl
        · exact Or.inl ⟨errorShaped_base request _ hDne, rfl⟩
      · refine ⟨request.evaluation_url,
          setItem (setItem (setItem (basePayload request) "repo_url" (.str ru))
            "commit_sha" (joptStr commit_sha)) "pages_url" (joptStr pages_url),
          none, ?_, ?_⟩
        · dsimp only
          rw [if_neg hru]
          exact (notifyEvents_publish_gh _ _ _ _).trans rfl
        · exact Or.inr ⟨successShaped_pub request ru (joptStr commit_sha) (joptStr pages_url),
            rfl⟩
